import Mathlib

/-!
Formal model of the snapshot reconciliation and rolling-window engine of the
foreclosure-sales scraper repository.  The Python sources are embedded
shallowly: strings are `String`, sheet tables are `List (List String)`,
Python `set` objects are lists with insert-if-absent semantics, `datetime`
values are calendar dates identified by their proleptic-Gregorian ordinal
(Python's `date.toordinal`), and `datetime.strptime` is modelled by a
backtracking matcher that follows CPython's per-directive regular
expressions for the directives the sources use.
-/

namespace Py

/-- Python `str.strip()` on ASCII whitespace: drop whitespace from both ends. -/
def pyStrip (s : String) : String :=
  ⟨((s.data.dropWhile Char.isWhitespace).reverse.dropWhile Char.isWhitespace).reverse⟩

/-- Python `str.lower()` (ASCII case folding, which is all the sources need). -/
def pyLower (s : String) : String :=
  ⟨s.data.map Char.toLower⟩

/-- Python `str.startswith(pre)`. -/
def pyStartsWith (s pre : String) : Bool :=
  List.isPrefixOf pre.data s.data

/-- Python `set.add`: sets of strings are modelled as duplicate-free lists in
insertion order; membership is the only observable the sources rely on,
plus `len`, which insert-if-absent preserves. -/
def insertIfAbsent (k : String) (s : List String) : List String :=
  if k ∈ s then s else s ++ [k]

theorem self_mem_insertIfAbsent (k : String) (s : List String) :
    k ∈ insertIfAbsent k s := by
  unfold insertIfAbsent
  split
  · assumption
  · simp

theorem mem_insertIfAbsent_of_mem (x k : String) (s : List String) (hx : x ∈ s) :
    x ∈ insertIfAbsent k s := by
  unfold insertIfAbsent
  split
  · exact hx
  · simp [hx]

end Py

namespace Py

/-- A calendar date as Python's `datetime.date` exposes it after parsing. -/
structure PyDate where
  year : Nat
  month : Nat
  day : Nat
deriving DecidableEq, Repr

/-- Gregorian leap-year test, as in Python's `calendar.isleap`. -/
def isLeap (y : Nat) : Bool :=
  y % 4 == 0 && (y % 100 != 0 || y % 400 == 0)

/-- Days in a month (1-based month), as `datetime` validates them. -/
def daysInMonth (y m : Nat) : Nat :=
  if m == 2 then (if isLeap y then 29 else 28)
  else [31, 28, 31, 30, 31, 30, 31, 31, 30, 31, 30, 31].getD (m - 1) 0

/-- Days in year `y` strictly before month `m` (1-based). -/
def daysBeforeMonth (y m : Nat) : Nat :=
  [0, 0, 31, 59, 90, 120, 151, 181, 212, 243, 273, 304, 334].getD m 0 +
    (if 2 < m && isLeap y then 1 else 0)

/-- Python's `date.toordinal`: day 1 is January 1 of year 1.  Python compares
`date` objects by position on the calendar line, and `timedelta(days = n)`
shifts that position by `n`, so the ordinal is a faithful carrier for the
date comparisons and date arithmetic the sources perform. -/
def toOrdinal (d : PyDate) : Nat :=
  let y := d.year - 1
  365 * y + y / 4 - y / 100 + y / 400 + daysBeforeMonth d.year d.month + d.day

/-! ### `datetime.strptime`

The sources use the directives `%Y %m %d %H %I %M %S %p` plus literal
separators.  CPython compiles each directive to a regular expression; the
matcher below enumerates, for each directive and input suffix, the
candidate matches in the order the regular-expression engine would try
them, and backtracks across the whole format the way `re` does.  A format
matches only when it consumes the entire input, and the matched fields are
then validated exactly where `datetime(...)` construction would raise. -/

inductive FmtTok where
  | lit : Char → FmtTok
  | ws
  | year4
  | month
  | day
  | hour24
  | hour12
  | minute
  | second
  | ampm
deriving DecidableEq, Repr

def digitVal (c : Char) : Nat := c.toNat - 48

def isDigitChar (c : Char) : Bool := decide (48 ≤ c.toNat ∧ c.toNat ≤ 57)

def charBetween (c lo hi : Char) : Bool :=
  decide (lo.toNat ≤ c.toNat ∧ c.toNat ≤ hi.toNat)

/-- `%Y` compiles to four mandatory digits. -/
def yearCandidates : List Char → List (Nat × List Char)
  | a :: b :: c :: d :: rest =>
    if isDigitChar a && isDigitChar b && isDigitChar c && isDigitChar d then
      [(1000 * digitVal a + 100 * digitVal b + 10 * digitVal c + digitVal d, rest)]
    else []
  | _ => []

/-- `%m` and `%I` compile to the alternation `1[0-2]|0[1-9]|[1-9]`. -/
def monthCandidates : List Char → List (Nat × List Char)
  | c1 :: c2 :: rest =>
    (if c1 == '1' && charBetween c2 '0' '2' then [(10 + digitVal c2, rest)] else []) ++
    (if c1 == '0' && charBetween c2 '1' '9' then [(digitVal c2, rest)] else []) ++
    (if charBetween c1 '1' '9' then [(digitVal c1, c2 :: rest)] else [])
  | [c1] => if charBetween c1 '1' '9' then [(digitVal c1, [])] else []
  | [] => []

/-- `%d` compiles to `3[01]|[12][0-9]|0[1-9]|[1-9]`. -/
def dayCandidates : List Char → List (Nat × List Char)
  | c1 :: c2 :: rest =>
    (if c1 == '3' && charBetween c2 '0' '1' then [(30 + digitVal c2, rest)] else []) ++
    (if (c1 == '1' || c1 == '2') && isDigitChar c2 then
      [(10 * digitVal c1 + digitVal c2, rest)] else []) ++
    (if c1 == '0' && charBetween c2 '1' '9' then [(digitVal c2, rest)] else []) ++
    (if charBetween c1 '1' '9' then [(digitVal c1, c2 :: rest)] else [])
  | [c1] => if charBetween c1 '1' '9' then [(digitVal c1, [])] else []
  | [] => []

/-- `%H` compiles to `2[0-3]|[0-1][0-9]|[0-9]`. -/
def hour24Candidates : List Char → List (Nat × List Char)
  | c1 :: c2 :: rest =>
    (if c1 == '2' && charBetween c2 '0' '3' then [(20 + digitVal c2, rest)] else []) ++
    (if (c1 == '0' || c1 == '1') && isDigitChar c2 then
      [(10 * digitVal c1 + digitVal c2, rest)] else []) ++
    (if isDigitChar c1 then [(digitVal c1, c2 :: rest)] else [])
  | [c1] => if isDigitChar c1 then [(digitVal c1, [])] else []
  | [] => []

/-- `%M` compiles to `[0-5][0-9]|[0-9]`. -/
def minuteCandidates : List Char → List (Nat × List Char)
  | c1 :: c2 :: rest =>
    (if charBetween c1 '0' '5' && isDigitChar c2 then
      [(10 * digitVal c1 + digitVal c2, rest)] else []) ++
    (if isDigitChar c1 then [(digitVal c1, c2 :: rest)] else [])
  | [c1] => if isDigitChar c1 then [(digitVal c1, [])] else []
  | [] => []

/-- `%S` compiles to `6[01]|[0-5][0-9]|[0-9]`. -/
def secondCandidates : List Char → List (Nat × List Char)
  | c1 :: c2 :: rest =>
    (if c1 == '6' && charBetween c2 '0' '1' then [(60 + digitVal c2, rest)] else []) ++
    (if charBetween c1 '0' '5' && isDigitChar c2 then
      [(10 * digitVal c1 + digitVal c2, rest)] else []) ++
    (if isDigitChar c1 then [(digitVal c1, c2 :: rest)] else [])
  | [c1] => if isDigitChar c1 then [(digitVal c1, [])] else []
  | [] => []

/-- `%p` matches `AM` or `PM` case-insensitively (value 1 for PM). -/
def ampmCandidates : List Char → List (Nat × List Char)
  | c1 :: c2 :: rest =>
    if (c1 == 'A' || c1 == 'a') && (c2 == 'M' || c2 == 'm') then [(0, rest)]
    else if (c1 == 'P' || c1 == 'p') && (c2 == 'M' || c2 == 'm') then [(1, rest)]
    else []
  | _ => []

/-- Whitespace in a format string matches one-or-more whitespace characters,
longest match first (greedy `\s+` with backtracking). -/
def wsCandidates (cs : List Char) : List (Nat × List Char) :=
  let k := (cs.takeWhile Char.isWhitespace).length
  (List.range k).map (fun j => (0, cs.drop (k - j)))

/-- A literal format character matches exactly itself. -/
def litCandidates (c : Char) : List Char → List (Nat × List Char)
  | x :: rest => if x == c then [(0, rest)] else []
  | [] => []

def tokCandidates : FmtTok → List Char → List (Nat × List Char)
  | .lit c, cs => litCandidates c cs
  | .ws, cs => wsCandidates cs
  | .year4, cs => yearCandidates cs
  | .month, cs => monthCandidates cs
  | .day, cs => dayCandidates cs
  | .hour24, cs => hour24Candidates cs
  | .hour12, cs => monthCandidates cs
  | .minute, cs => minuteCandidates cs
  | .second, cs => secondCandidates cs
  | .ampm, cs => ampmCandidates cs

/-- Field assignment accumulated during a match, with `strptime` defaults. -/
structure TimeFields where
  y : Nat := 1900
  mo : Nat := 1
  dy : Nat := 1
  hr : Nat := 0
  mi : Nat := 0
  sec : Nat := 0
  isPM : Bool := false
deriving DecidableEq, Repr

def applyTok (t : FmtTok) (v : Nat) (a : TimeFields) : TimeFields :=
  match t with
  | .year4 => { a with y := v }
  | .month => { a with mo := v }
  | .day => { a with dy := v }
  | .hour24 => { a with hr := v }
  | .hour12 => { a with hr := v }
  | .minute => { a with mi := v }
  | .second => { a with sec := v }
  | .ampm => { a with isPM := v == 1 }
  | .lit _ => a
  | .ws => a

/-- Backtracking matcher; the whole input must be consumed. -/
def matchToks : List FmtTok → List Char → TimeFields → Option TimeFields
  | [], [], a => some a
  | [], _ :: _, _ => none
  | t :: ts, cs, a =>
    (tokCandidates t cs).findSome? (fun p => matchToks ts p.2 (applyTok t p.1 a))

/-- Validation done by the `datetime(...)` constructor that `strptime`
invokes; an out-of-range component makes the whole format attempt fail. -/
def buildDate (a : TimeFields) : Option PyDate :=
  if 1 ≤ a.y ∧ 1 ≤ a.mo ∧ a.mo ≤ 12 ∧ 1 ≤ a.dy ∧ a.dy ≤ daysInMonth a.y a.mo ∧
      a.hr ≤ 23 ∧ a.mi ≤ 59 ∧ a.sec ≤ 59 then
    some ⟨a.y, a.mo, a.dy⟩
  else none

/-- One `datetime.strptime(s, fmt)` attempt, projected to the calendar date
(the sources discard time-of-day via `.date()`). -/
def strptimeDate (toks : List FmtTok) (s : String) : Option PyDate :=
  (matchToks toks s.data {}).bind buildDate

def fmt_mdY_hm12 : List FmtTok :=
  [.month, .lit '/', .day, .lit '/', .year4, .ws, .hour12, .lit ':', .minute, .ws, .ampm]

def fmt_mdY_hm24 : List FmtTok :=
  [.month, .lit '/', .day, .lit '/', .year4, .ws, .hour24, .lit ':', .minute]

def fmt_mdY : List FmtTok := [.month, .lit '/', .day, .lit '/', .year4]

def fmt_Ymd_hms : List FmtTok :=
  [.year4, .lit '-', .month, .lit '-', .day, .ws, .hour24, .lit ':', .minute, .lit ':', .second]

def fmt_Ymd : List FmtTok := [.year4, .lit '-', .month, .lit '-', .day]

def fmt_mdY_dash : List FmtTok := [.month, .lit '-', .day, .lit '-', .year4]

def fmt_dmY : List FmtTok := [.day, .lit '/', .month, .lit '/', .year4]

end Py

open Py

namespace Scraper

/-- Format list of `parse_sale_date` in `scraper.py`, in source order. -/
def saleFormats : List (List FmtTok) :=
  [fmt_mdY_hm12, fmt_mdY_hm24, fmt_mdY, fmt_Ymd_hms, fmt_Ymd, fmt_mdY_dash]

/-- `scraper.parse_sale_date`: falsy input gives `None`; otherwise the fixed
format list is tried in order on the stripped string and the first success
wins; if none match the result is `None` (the per-format exception is
swallowed by the `except: continue` in the loop). -/
def parse_sale_date (date_str : String) : Option PyDate :=
  if date_str.data.isEmpty then none
  else saleFormats.findSome? (fun f => strptimeDate f (pyStrip date_str))

def WINDOW_DAYS : Nat := 30

/-- `scraper.is_within_30_days`: `today` is the optional explicit reference
(`None` falls back to `datetime.now()`, whose value at the call is the
extra `now` argument of the model); the window is
`t.date() <= dt.date() <= (t + timedelta(days=WINDOW_DAYS-1)).date()`. -/
def is_within_30_days (date_str : String) (today : Option PyDate) (now : PyDate) : Bool :=
  match parse_sale_date date_str with
  | none => false
  | some dt =>
    let t := today.getD now
    decide (toOrdinal t ≤ toOrdinal dt ∧ toOrdinal dt ≤ toOrdinal t + (WINDOW_DAYS - 1))

end Scraper

namespace Highlighting

/-- Format list of `parse_date` in `highlighting.py`, in source order (it
has the extra trailing `%d/%m/%Y` variant). -/
def dateFormats : List (List FmtTok) :=
  [fmt_mdY_hm12, fmt_mdY_hm24, fmt_mdY, fmt_Ymd_hms, fmt_Ymd, fmt_mdY_dash, fmt_dmY]

/-- `highlighting.parse_date`. -/
def parse_date (date_str : String) : Option PyDate :=
  if date_str.data.isEmpty then none
  else dateFormats.findSome? (fun f => strptimeDate f (pyStrip date_str))

def WINDOW_DAYS : Nat := 30

/-- `highlighting.window_range`, as ordinals of the start and end dates:
`start = t`, `end = t + timedelta(days=WINDOW_DAYS-1)`. -/
def window_range (today : Option PyDate) (now : PyDate) : Nat × Nat :=
  let t := today.getD now
  (toOrdinal t, toOrdinal t + (WINDOW_DAYS - 1))

/-- `highlighting.is_within_30_days`. -/
def is_within_30_days (date_str : String) (today : Option PyDate) (now : PyDate) : Bool :=
  match parse_date date_str with
  | none => false
  | some dt =>
    let r := window_range today now
    decide (r.1 ≤ toOrdinal dt ∧ toOrdinal dt ≤ r.2)

/-- The header-row test of `get_previous_keys`: the row is non-empty (Python
truthiness of the list) and its first cell, stripped and lowercased, is
`"property id"`. -/
def isHeaderRow (row : List String) : Bool :=
  match row with
  | [] => false
  | c :: _ => if pyLower (pyStrip c) = "property id" then true else false

/-- Index of the first header row, as the `for i, row in enumerate(vals)`
search computes it (`-1` becomes `none`). -/
def findHeaderIdx : List (List String) → Option Nat
  | [] => none
  | row :: rest =>
    if isHeaderRow row then some 0
    else
      match findHeaderIdx rest with
      | some i => some (i + 1)
      | none => none

/-- The per-row key of the collection loop of `get_previous_keys`: the
stripped first cell if non-empty, else `addr|defn` from the stripped second
and third cells provided at least one is non-empty, else no key. -/
def rowKey? (row : List String) : Option String :=
  let pid := pyStrip (row.headD "")
  if pid ≠ "" then some pid
  else
    let addr := pyStrip (row.getD 1 "")
    let defn := pyStrip (row.getD 2 "")
    if addr ≠ "" ∨ defn ≠ "" then some (addr ++ "|" ++ defn) else none

/-- The collection loop of `get_previous_keys` over the rows after
`start_idx`: empty rows are skipped, keyless rows contribute nothing. -/
def collectKeysAux : List (List String) → List String → List String
  | [], acc => acc
  | row :: rest, acc =>
    if row.isEmpty then collectKeysAux rest acc
    else
      match rowKey? row with
      | some k => collectKeysAux rest (insertIfAbsent k acc)
      | none => collectKeysAux rest acc

def collectKeys (rows : List (List String)) : List String :=
  collectKeysAux rows []

/-- `SheetsClient.get_previous_keys` on the values read from the sheet:
fewer than two rows give the empty set; otherwise collection starts after
the first header row, falling back to skipping two top rows (or zero for a
two-row table) when no header is found. -/
def get_previous_keys (vals : List (List String)) : List String :=
  if vals.length < 2 then []
  else
    let start_idx :=
      match findHeaderIdx vals with
      | some i => i + 1
      | none => if 2 < vals.length then 2 else 0
    collectKeys (vals.drop start_idx)

/-- The key computed for each batch row inside `write_snapshot` (and again
in `apply_formatting`): stripped first cell when truthy and non-blank, else
always the composite `addr|defn` — even when both parts are empty, in which
case the key degenerates to `"|"`. -/
def ws_rowKey (r : List String) : String :=
  let pid := pyStrip (r.headD "")
  if pid ≠ "" then pid
  else
    let addr := pyStrip (r.getD 1 "")
    let defn := pyStrip (r.getD 2 "")
    addr ++ "|" ++ defn

/-- The `new_keys` accumulation loop of `write_snapshot`: a row's key is
added (once) when it is not among the previous keys. -/
def newKeysAux (prev : List String) : List (List String) → List String → List String
  | [], acc => acc
  | r :: rest, acc =>
    if ws_rowKey r ∈ prev then newKeysAux prev rest acc
    else newKeysAux prev rest (insertIfAbsent (ws_rowKey r) acc)

def write_snapshot_new_keys (rows : List (List String)) (prev : List String) : List String :=
  newKeysAux prev rows []

/-- The values `write_snapshot` writes after clearing the sheet: snapshot
label row, header row, then the data rows unchanged. -/
def write_snapshot_values (snapshot_label : String) (headers : List String)
    (rows : List (List String)) : List (List String) :=
  [snapshot_label] :: headers :: rows

/-- The `(written, new)` counts `write_snapshot` returns. -/
def write_snapshot_counts (rows : List (List String)) (prev : List String) : Nat × Nat :=
  (rows.length, (write_snapshot_new_keys rows prev).length)

end Highlighting

namespace MainRun

/-- The banner test of the previous-state scan in `main.run`: the row is a
non-empty list and its first cell starts with `"Snapshot for"`. -/
def isBannerRow (row : List String) : Bool :=
  match row with
  | [] => false
  | c :: _ => pyStartsWith c "Snapshot for"

/-- Index of the first banner row (`break` after the first hit). -/
def findBannerIdx : List (List String) → Option Nat
  | [] => none
  | row :: rest =>
    if isBannerRow row then some 0
    else
      match findBannerIdx rest with
      | some i => some (i + 1)
      | none => none

/-- `header_idx` as `main.run` computes it: the row after the first banner,
provided that row exists and is non-empty. -/
def headerIdx (existing : List (List String)) : Option Nat :=
  match findBannerIdx existing with
  | none => none
  | some i =>
    match existing.getD (i + 1) [] with
    | [] => none
    | _ :: _ => some (i + 1)

/-- The separator test that stops the collection loop: an empty row, or a
one-cell row whose cell strips to the empty string. -/
def isBlankRow (r : List String) : Bool :=
  r.isEmpty || (r.length == 1 && pyStrip (r.headD "") == "")

/-- The collection loop of `main.run`: walk the rows after the header,
stop at the first blank separator, and keep each non-empty stripped
`Property ID` (rows with a blank id are passed over, not collected). -/
def collectPids : List (List String) → List String
  | [] => []
  | r :: rest =>
    if isBlankRow r then []
    else
      let pid := pyStrip (r.headD "")
      if pid ≠ "" then pid :: collectPids rest else collectPids rest

/-- `existing_ids` of `main.run` (the set is modelled by the list of
collected ids; only membership is consumed downstream). -/
def existing_ids (existing : List (List String)) : List String :=
  match headerIdx existing with
  | none => []
  | some h => if h + 1 < existing.length then collectPids (existing.drop (h + 1)) else []

/-- The values `overwrite_with_snapshot` writes: banner, header, all data
rows, trailing separator. -/
def overwrite_values (banner : String) (header : List String)
    (all_rows : List (List String)) : List (List String) :=
  [banner] :: header :: (all_rows ++ [[""]])

/-- The values `prepend_snapshot` leaves on the sheet: the same payload
shape placed ahead of the previous contents. -/
def prepend_values (banner : String) (header : List String)
    (new_rows existing : List (List String)) : List (List String) :=
  ([banner] :: header :: (new_rows ++ [[""]])) ++ existing

/-- The write a county iteration of `main.run` performs. -/
inductive WriteAction where
  | overwrite : List (List String) → WriteAction
  | prependWrite : List (List String) → WriteAction
  | noWrite
deriving DecidableEq, Repr

/-- The `Property ID` cell of a batch row (`df_county["Property ID"]`). -/
def pidOf (r : List String) : String := r.headD ""

/-- One county iteration of `main.run`, from the write-mode decision on:
first run or a missing county tab takes the full-overwrite branch with the
whole batch; otherwise the batch is diffed against `existing_ids` of the
previously persisted values (raw, unstripped `Property ID` membership, as
`isin` does) and only a non-empty new set is prepended. -/
def runCountyWrite (first_run sheetExists : Bool) (banner : String)
    (header : List String) (existing batch : List (List String)) : WriteAction :=
  if first_run || !sheetExists then
    .overwrite (overwrite_values banner header batch)
  else
    let ids := existing_ids existing
    let new_rows := batch.filter (fun r => !(ids.contains (pidOf r)))
    if new_rows.isEmpty then .noWrite
    else .prependWrite (prepend_values banner header new_rows existing)

/-- A persisted sheet together with the decoration effects applied to it;
`highlighted` records the row indices passed to `highlight_new_rows` and
`filterApplied` whether `apply_30_day_filter` was invoked. -/
structure SheetState where
  table : List (List String)
  highlighted : List Nat
  filterApplied : Bool
deriving DecidableEq, Repr

/-- `SheetsClient.prepend_snapshot` of `main.py` as a transformer of the
persisted sheet state: an empty new-row list returns before any read,
clear, write, highlight or filter call; otherwise the payload is prepended,
the provided indices are shifted past the banner and header rows and
highlighted, and the rolling filter is applied. -/
def prepend_snapshot (banner : String) (header : List String)
    (new_rows : List (List String)) (new_row_indices : List Nat)
    (st : SheetState) : SheetState :=
  if new_rows.isEmpty then st
  else
    let st1 : SheetState := { st with table := prepend_values banner header new_rows st.table }
    let st2 : SheetState :=
      if new_row_indices.isEmpty then st1
      else { st1 with highlighted := st1.highlighted ++ new_row_indices.map (fun i => i + 1 + 1) }
    { st2 with filterApplied := true }

end MainRun

namespace MainLW

/-- `SheetsClient.prepend_snapshot` of `main_lightweight.py`, the same
early-return guard in front of the same sequence of effects. -/
def prepend_snapshot (banner : String) (header : List String)
    (new_rows : List (List String)) (new_row_indices : List Nat)
    (st : MainRun.SheetState) : MainRun.SheetState :=
  if new_rows.isEmpty then st
  else
    let payload := [banner] :: header :: (new_rows ++ [[""]])
    let st1 : MainRun.SheetState := { st with table := payload ++ st.table }
    let st2 : MainRun.SheetState :=
      if new_row_indices.isEmpty then st1
      else { st1 with highlighted := st1.highlighted ++ new_row_indices.map (fun i => i + 1 + 1) }
    { st2 with filterApplied := true }

end MainLW

/-! ### Supporting lemmas -/

namespace Highlighting

theorem rowKey?_of_isEmpty (row : List String) (h : row.isEmpty = true) :
    rowKey? row = none := by
  cases row with
  | nil => rfl
  | cons a t => simp [List.isEmpty] at h

theorem ws_rowKey_eq_of_rowKey? (r : List String) (k : String)
    (h : rowKey? r = some k) : ws_rowKey r = k := by
  unfold rowKey? at h
  unfold ws_rowKey
  by_cases hp : pyStrip (r.headD "") ≠ ""
  · simp only [if_pos hp] at h ⊢
    exact (Option.some.injEq _ _).mp h
  · simp only [if_neg hp] at h ⊢
    by_cases hs : pyStrip (r.getD 1 "") ≠ "" ∨ pyStrip (r.getD 2 "") ≠ ""
    · simp only [if_pos hs] at h
      exact (Option.some.injEq _ _).mp h
    · simp only [if_neg hs] at h
      exact Option.noConfusion h

theorem mem_collectKeysAux_of_mem_acc (rows : List (List String)) (acc : List String)
    (x : String) (hx : x ∈ acc) : x ∈ collectKeysAux rows acc := by
  induction rows generalizing acc with
  | nil => simpa [collectKeysAux] using hx
  | cons r rest ih =>
    unfold collectKeysAux
    by_cases he : r.isEmpty
    · simp only [if_pos he]
      exact ih acc hx
    · simp only [if_neg he]
      cases hk : rowKey? r with
      | none => exact ih acc hx
      | some k => exact ih _ (Py.mem_insertIfAbsent_of_mem x k acc hx)

theorem mem_collectKeysAux_of_key (rows : List (List String)) (acc : List String)
    (r : List String) (k : String) (hr : r ∈ rows) (hk : rowKey? r = some k) :
    k ∈ collectKeysAux rows acc := by
  induction rows generalizing acc with
  | nil => cases hr
  | cons r0 rest ih =>
    unfold collectKeysAux
    rcases List.mem_cons.mp hr with heq | hmem
    · subst heq
      have he : r.isEmpty = false := by
        cases hhe : r.isEmpty
        · rfl
        · rw [rowKey?_of_isEmpty r hhe] at hk; cases hk
      simp only [he, Bool.false_eq_true, if_false, hk]
      exact mem_collectKeysAux_of_mem_acc rest _ k (Py.self_mem_insertIfAbsent k acc)
    · by_cases he : r0.isEmpty
      · simp only [if_pos he]
        exact ih acc hmem
      · simp only [if_neg he]
        cases hk0 : rowKey? r0 with
        | none => exact ih acc hmem
        | some k0 => exact ih _ hmem

theorem newKeysAux_eq_of_all_mem (prev : List String) (rows : List (List String))
    (acc : List String) (h : ∀ r ∈ rows, ws_rowKey r ∈ prev) :
    newKeysAux prev rows acc = acc := by
  induction rows generalizing acc with
  | nil => rfl
  | cons r rest ih =>
    unfold newKeysAux
    have hr : ws_rowKey r ∈ prev := h r (List.mem_cons_self r rest)
    simp only [if_pos hr]
    exact ih acc (fun r' hr' => h r' (List.mem_cons_of_mem r hr'))

end Highlighting

namespace MainRun

/-- The stripped, non-blank primary ids of a list of rows, in order: the
value the first-block collection loop is expected to produce. -/
def pidsOf : List (List String) → List String
  | [] => []
  | r :: bl =>
    if pyStrip (r.headD "") = "" then pidsOf bl
    else pyStrip (r.headD "") :: pidsOf bl

theorem collectPids_block_append (block rest : List (List String))
    (hblock : ∀ r ∈ block, isBlankRow r = false) :
    collectPids (block ++ [""] :: rest) = pidsOf block := by
  induction block with
  | nil =>
    simp only [List.nil_append, pidsOf]
    unfold collectPids
    have h1 : isBlankRow [""] = true := by decide
    simp [h1]
  | cons r bl ih =>
    have hr : isBlankRow r = false := hblock r (List.mem_cons_self r bl)
    have hbl : ∀ r' ∈ bl, isBlankRow r' = false :=
      fun r' h' => hblock r' (List.mem_cons_of_mem r h')
    simp only [List.cons_append]
    unfold collectPids
    simp only [hr, Bool.false_eq_true, if_false]
    unfold pidsOf
    rw [ih hbl]
    by_cases hp : pyStrip (r.headD "") = ""
    · simp [hp]
    · simp [hp]

end MainRun

/-! ### Claims -/

/-- Claim C1: diff with identity fallback.  With previous state containing
only `"P1"` and the batch `P1`-row, `P2`-row, and a row with blank id,
address `"12 Main"` and defendant `"Doe"`, the `write_snapshot` diff leaves
`P1` out of the new set (known), puts `P2` in it, resolves the third row's
key to `"12 Main|Doe"` (trimmed primary id when non-empty, else
`secondaryA|secondaryB`), and classifies it as new. -/
theorem diff_identity_fallback_scenario :
    Highlighting.ws_rowKey ["P1", "8 High St", "Smith", "01/05/2025", ""] = "P1" ∧
    Highlighting.ws_rowKey ["P2", "9 High St", "Jones", "01/06/2025", ""] = "P2" ∧
    Highlighting.ws_rowKey [" P1 ", "8 High St", "Smith", "01/05/2025", ""] = "P1" ∧
    Highlighting.ws_rowKey ["", "12 Main", "Doe", "01/07/2025", ""] = "12 Main|Doe" ∧
    "P1" ∉ Highlighting.write_snapshot_new_keys
      [["P1", "8 High St", "Smith", "01/05/2025", ""],
       ["P2", "9 High St", "Jones", "01/06/2025", ""],
       ["", "12 Main", "Doe", "01/07/2025", ""]] ["P1"] ∧
    Highlighting.write_snapshot_new_keys
      [["P1", "8 High St", "Smith", "01/05/2025", ""],
       ["P2", "9 High St", "Jones", "01/06/2025", ""],
       ["", "12 Main", "Doe", "01/07/2025", ""]] ["P1"] = ["P2", "12 Main|Doe"] := by
  decide

/-- Claim C2, counterexample: idempotence across passes fails as stated.
A batch holding a single row with no resolvable identity gets the
degenerate key `"|"` from `write_snapshot`, but feeding the written payload
back through `get_previous_keys` yields no key for that row (the extractor
refuses keys with both secondary fields blank), so the second pass reports
the same row as new again instead of an empty new set. -/
theorem snapshot_roundtrip_counterexample :
    Highlighting.write_snapshot_new_keys [[""]]
      (Highlighting.get_previous_keys
        (Highlighting.write_snapshot_values "Snapshot for 2025-01-01"
          ["Property ID", "Address", "Defendant"] [[""]])) = ["|"] := by
  decide

/-- Claim C2, amended: across-pass idempotence does hold whenever every
batch row has a resolvable identity (non-blank trimmed primary id, or at
least one non-blank trimmed secondary field), the header row starts with
the `Property ID` cell and the snapshot label is not itself a header.
Pass N's payload, re-read by `get_previous_keys`, then covers every batch
key, so pass N+1 computes an empty new set. -/
theorem snapshot_roundtrip_no_new (label : String) (headers : List String)
    (rows : List (List String))
    (hlabel : pyLower (pyStrip label) ≠ "property id")
    (hne : headers ≠ [])
    (hheaders : pyLower (pyStrip (headers.headD "")) = "property id")
    (hres : ∀ r ∈ rows, (Highlighting.rowKey? r).isSome) :
    Highlighting.write_snapshot_new_keys rows
      (Highlighting.get_previous_keys
        (Highlighting.write_snapshot_values label headers rows)) = [] := by
  cases headers with
  | nil => exact absurd rfl hne
  | cons h0 hs =>
    have hrow0 : Highlighting.isHeaderRow [label] = false := by
      unfold Highlighting.isHeaderRow
      simp [hlabel]
    have hrow1 : Highlighting.isHeaderRow (h0 :: hs) = true := by
      unfold Highlighting.isHeaderRow
      simp only [List.headD_cons] at hheaders
      simp [hheaders]
    have hfh : Highlighting.findHeaderIdx ([label] :: (h0 :: hs) :: rows) = some 1 := by
      simp [Highlighting.findHeaderIdx, hrow0, hrow1]
    have hgpk : Highlighting.get_previous_keys
        (Highlighting.write_snapshot_values label (h0 :: hs) rows) =
        Highlighting.collectKeys rows := by
      unfold Highlighting.get_previous_keys Highlighting.write_snapshot_values
      rw [hfh]
      simp
    rw [hgpk]
    unfold Highlighting.write_snapshot_new_keys
    apply Highlighting.newKeysAux_eq_of_all_mem
    intro r hr
    obtain ⟨k, hk⟩ := Option.isSome_iff_exists.mp (hres r hr)
    rw [Highlighting.ws_rowKey_eq_of_rowKey? r k hk]
    exact Highlighting.mem_collectKeysAux_of_key rows [] r k hr hk

/-- Claim C2, witness for the amended theorem at a concrete batch. -/
theorem snapshot_roundtrip_no_new_witness :
    pyLower (pyStrip "Snapshot for 2025-01-01") ≠ "property id" ∧
    (["Property ID", "Address", "Defendant"] : List String) ≠ [] ∧
    pyLower (pyStrip ((["Property ID", "Address", "Defendant"] : List String).headD "")) =
      "property id" ∧
    (∀ r ∈ [["P1", "1 Elm", "Alice"], ["", "12 Main", "Doe"]],
      (Highlighting.rowKey? r).isSome) ∧
    Highlighting.write_snapshot_new_keys [["P1", "1 Elm", "Alice"], ["", "12 Main", "Doe"]]
      (Highlighting.get_previous_keys
        (Highlighting.write_snapshot_values "Snapshot for 2025-01-01"
          ["Property ID", "Address", "Defendant"]
          [["P1", "1 Elm", "Alice"], ["", "12 Main", "Doe"]])) = [] :=
  ⟨by decide, by decide, by decide, by decide,
   snapshot_roundtrip_no_new "Snapshot for 2025-01-01"
     ["Property ID", "Address", "Defendant"]
     [["P1", "1 Elm", "Alice"], ["", "12 Main", "Doe"]]
     (by decide) (by decide) (by decide) (by decide)⟩

/-- Claim C3: the code violates unidentifiable isolation.  A record with
blank primary id and both secondary fields blank is given the shared
degenerate fallback key `"|"` by `write_snapshot`, lands in the new set
when that key is unseen, and two such records collapse onto the same key
(two rows, one new key) instead of being flagged; `get_previous_keys`
asymmetrically drops such rows, as the spec demands for the whole engine. -/
theorem unidentifiable_fallback_key_bug :
    Highlighting.ws_rowKey ["", "", ""] = "|" ∧
    Highlighting.write_snapshot_new_keys [["", "", ""], ["", "", ""]] [] = ["|"] ∧
    Highlighting.write_snapshot_counts [["", "", ""], ["", "", ""]] [] = (2, 1) ∧
    Highlighting.rowKey? ["", "", ""] = none := by
  decide

/-- Claim C4, counterexample: on a table holding two banner-prefixed
blocks, newest first, `get_previous_keys` does not stop at the blank
separator or the next banner: it returns `"P2"` from the older block (and
even the older banner text and header cell as keys). -/
theorem older_block_keys_counterexample :
    Highlighting.get_previous_keys
      [["Snapshot for Monday - 2025-02-01"],
       ["Property ID", "Address", "Defendant"],
       ["P1", "1 Elm", "Alice"],
       [""],
       ["Snapshot for Sunday - 2025-01-01"],
       ["Property ID", "Address", "Defendant"],
       ["P2", "2 Oak", "Bob"],
       [""]] =
      ["P1", "Snapshot for Sunday - 2025-01-01", "Property ID", "P2"] ∧
    "P2" ∈ Highlighting.get_previous_keys
      [["Snapshot for Monday - 2025-02-01"],
       ["Property ID", "Address", "Defendant"],
       ["P1", "1 Elm", "Alice"],
       [""],
       ["Snapshot for Sunday - 2025-01-01"],
       ["Property ID", "Address", "Defendant"],
       ["P2", "2 Oak", "Bob"],
       [""]] := by
  decide

/-- Claim C4, amended: the most-recent-block property holds for the inline
previous-state extractor of `main.run` (the one the prepend path actually
consults): on a table whose first row is a banner, followed by a non-empty
header row, the rows of the newest block and a blank separator before any
older content, it returns exactly the non-blank primary ids of the newest
block, stopping at the separator and never reading older blocks. -/
theorem run_extractor_first_block_only (bannerCell : String) (header : List String)
    (block rest : List (List String))
    (hb : pyStartsWith bannerCell "Snapshot for" = true)
    (hheader : header ≠ [])
    (hblock : ∀ r ∈ block, MainRun.isBlankRow r = false) :
    MainRun.existing_ids ([bannerCell] :: header :: (block ++ [""] :: rest)) =
      MainRun.pidsOf block := by
  cases header with
  | nil => exact absurd rfl hheader
  | cons h0 hs =>
    have hbr : MainRun.isBannerRow [bannerCell] = true := by
      unfold MainRun.isBannerRow
      exact hb
    have hfb : MainRun.findBannerIdx
        ([bannerCell] :: (h0 :: hs) :: (block ++ [""] :: rest)) = some 0 := by
      simp [MainRun.findBannerIdx, hbr]
    have hhi : MainRun.headerIdx
        ([bannerCell] :: (h0 :: hs) :: (block ++ [""] :: rest)) = some 1 := by
      unfold MainRun.headerIdx
      rw [hfb]
      rfl
    have hlt : 1 + 1 < ([bannerCell] :: (h0 :: hs) :: (block ++ [""] :: rest)).length := by
      simp
    unfold MainRun.existing_ids
    rw [hhi]
    show (if 1 + 1 < ([bannerCell] :: (h0 :: hs) :: (block ++ [""] :: rest)).length then
        MainRun.collectPids
          (List.drop (1 + 1) ([bannerCell] :: (h0 :: hs) :: (block ++ [""] :: rest)))
      else []) = MainRun.pidsOf block
    rw [if_pos hlt]
    exact MainRun.collectPids_block_append block rest hblock

/-- Claim C4, witness: the amended theorem at the two-block table returns
only the newest block's id. -/
theorem run_extractor_first_block_only_witness :
    pyStartsWith "Snapshot for Monday - 2025-02-01" "Snapshot for" = true ∧
    (["Property ID", "Address", "Defendant"] : List String) ≠ [] ∧
    (∀ r ∈ [["P1", "1 Elm", "Alice"]], MainRun.isBlankRow r = false) ∧
    MainRun.existing_ids
      [["Snapshot for Monday - 2025-02-01"],
       ["Property ID", "Address", "Defendant"],
       ["P1", "1 Elm", "Alice"],
       [""],
       ["Snapshot for Sunday - 2025-01-01"],
       ["Property ID", "Address", "Defendant"],
       ["P2", "2 Oak", "Bob"],
       [""]] = ["P1"] :=
  ⟨by decide, by decide, by decide,
   (run_extractor_first_block_only "Snapshot for Monday - 2025-02-01"
     ["Property ID", "Address", "Defendant"]
     [["P1", "1 Elm", "Alice"]]
     [["Snapshot for Sunday - 2025-01-01"], ["Property ID", "Address", "Defendant"],
      ["P2", "2 Oak", "Bob"], [""]]
     (by decide) (by decide) (by decide)).trans (by decide)⟩

/-- Claim C5: window inclusivity at the boundaries.  With explicit
reference date 2025-01-01 both evaluators accept 2025-01-01 and 2025-01-30
and reject 2025-01-31; in general, for an explicitly supplied reference
date, membership is exactly
`start <= recordDate <= start + (WINDOW_DAYS - 1)` on calendar-date
ordinals (time-of-day is discarded by parsing to a date). -/
theorem window_inclusivity_boundaries :
    Scraper.is_within_30_days "2025-01-01" (some ⟨2025, 1, 1⟩) ⟨2025, 1, 1⟩ = true ∧
    Scraper.is_within_30_days "2025-01-30" (some ⟨2025, 1, 1⟩) ⟨2025, 1, 1⟩ = true ∧
    Scraper.is_within_30_days "2025-01-31" (some ⟨2025, 1, 1⟩) ⟨2025, 1, 1⟩ = false ∧
    Highlighting.is_within_30_days "2025-01-01" (some ⟨2025, 1, 1⟩) ⟨2025, 1, 1⟩ = true ∧
    Highlighting.is_within_30_days "2025-01-30" (some ⟨2025, 1, 1⟩) ⟨2025, 1, 1⟩ = true ∧
    Highlighting.is_within_30_days "2025-01-31" (some ⟨2025, 1, 1⟩) ⟨2025, 1, 1⟩ = false ∧
    (∀ (s : String) (t now : PyDate),
      Scraper.is_within_30_days s (some t) now = true ↔
        ∃ d, Scraper.parse_sale_date s = some d ∧
          toOrdinal t ≤ toOrdinal d ∧
          toOrdinal d ≤ toOrdinal t + (Scraper.WINDOW_DAYS - 1)) ∧
    (∀ (s : String) (t now : PyDate),
      Highlighting.is_within_30_days s (some t) now = true ↔
        ∃ d, Highlighting.parse_date s = some d ∧
          toOrdinal t ≤ toOrdinal d ∧
          toOrdinal d ≤ toOrdinal t + (Highlighting.WINDOW_DAYS - 1)) := by
  refine ⟨by decide, by decide, by decide, by decide, by decide, by decide, ?_, ?_⟩
  · intro s t now
    unfold Scraper.is_within_30_days
    cases h : Scraper.parse_sale_date s with
    | none => simp [h]
    | some d => simp [h]
  · intro s t now
    unfold Highlighting.is_within_30_days Highlighting.window_range
    cases h : Highlighting.parse_date s with
    | none => simp [h]
    | some d => simp [h]

/-- Claim C6: unparseable-date handling.  Both parsers try their fixed,
ordered format lists and yield `none` when nothing matches, and a `none`
parse makes the window evaluators return `false` (total functions, no
exception).  The concrete conjuncts exercise the ordering: `01/02/2025`
resolves through the earlier month/day/year format even where the later
day/month/year variant would also match, and `25/12/2025` is accepted only
by the parser that has the day/month variant. -/
theorem unparseable_date_excluded :
    (∀ (s : String) (today : Option PyDate) (now : PyDate),
      Scraper.parse_sale_date s = none → Scraper.is_within_30_days s today now = false) ∧
    (∀ (s : String) (today : Option PyDate) (now : PyDate),
      Highlighting.parse_date s = none → Highlighting.is_within_30_days s today now = false) ∧
    Highlighting.parse_date "01/02/2025" = some ⟨2025, 1, 2⟩ ∧
    Scraper.parse_sale_date "25/12/2025" = none ∧
    Highlighting.parse_date "25/12/2025" = some ⟨2025, 12, 25⟩ ∧
    Scraper.parse_sale_date "02/30/2025" = none := by
  refine ⟨?_, ?_, by decide, by decide, by decide, by decide⟩
  · intro s today now h
    unfold Scraper.is_within_30_days
    rw [h]
  · intro s today now h
    unfold Highlighting.is_within_30_days
    rw [h]

/-- Claim C6, witness: a wholly unparseable string is excluded from the
window by both evaluators. -/
theorem unparseable_date_excluded_witness :
    Scraper.parse_sale_date "next Tuesday" = none ∧
    Scraper.is_within_30_days "next Tuesday" none ⟨2025, 1, 1⟩ = false ∧
    Highlighting.parse_date "next Tuesday" = none ∧
    Highlighting.is_within_30_days "next Tuesday" none ⟨2025, 1, 1⟩ = false :=
  ⟨by decide, unparseable_date_excluded.1 "next Tuesday" none ⟨2025, 1, 1⟩ (by decide),
   by decide, unparseable_date_excluded.2.1 "next Tuesday" none ⟨2025, 1, 1⟩ (by decide)⟩

/-- Claim C7: write-mode decision and payload shape in `main.run`.  On the
first run or when the county tab is missing, the whole batch is written in
overwrite mode; otherwise exactly the rows whose `Property ID` is not in
the extracted previous state are written in prepend mode, ahead of the
existing history, and nothing is written when there are none.  In both
writing modes the emitted payload is banner row, header row, data rows in
batch order, trailing separator row. -/
theorem write_mode_decision_shape (first_run sheetExists : Bool) (banner : String)
    (header : List String) (existing batch : List (List String)) :
    ((first_run || !sheetExists) = true →
      MainRun.runCountyWrite first_run sheetExists banner header existing batch =
        MainRun.WriteAction.overwrite ([banner] :: header :: (batch ++ [[""]]))) ∧
    ((first_run || !sheetExists) = false →
      batch.filter (fun r => !((MainRun.existing_ids existing).contains (MainRun.pidOf r))) ≠
        [] →
      MainRun.runCountyWrite first_run sheetExists banner header existing batch =
        MainRun.WriteAction.prependWrite
          (([banner] :: header ::
            (batch.filter
              (fun r => !((MainRun.existing_ids existing).contains (MainRun.pidOf r))) ++
              [[""]])) ++ existing)) ∧
    ((first_run || !sheetExists) = false →
      batch.filter (fun r => !((MainRun.existing_ids existing).contains (MainRun.pidOf r))) =
        [] →
      MainRun.runCountyWrite first_run sheetExists banner header existing batch =
        MainRun.WriteAction.noWrite) := by
  unfold MainRun.runCountyWrite MainRun.overwrite_values MainRun.prepend_values
  refine ⟨fun h1 => ?_, fun h1 h2 => ?_, fun h1 h2 => ?_⟩
  · rw [h1]
    rfl
  · rw [h1]
    simp only [Bool.false_eq_true, if_false]
    rw [if_neg (by simpa [List.isEmpty_iff] using h2)]
  · rw [h1]
    simp only [Bool.false_eq_true, if_false]
    rw [if_pos (by simpa [List.isEmpty_iff] using h2)]

/-- Claim C7, witness: both writing modes and the no-op case at concrete
inputs. -/
theorem write_mode_decision_shape_witness :
    MainRun.runCountyWrite true true "Snapshot for 2025-01-01" ["Property ID"]
        [] [["P1"], ["P2"]] =
      MainRun.WriteAction.overwrite
        [["Snapshot for 2025-01-01"], ["Property ID"], ["P1"], ["P2"], [""]] ∧
    MainRun.runCountyWrite false true "Snapshot for 2025-02-01" ["Property ID"]
        [["Snapshot for 2025-01-01"], ["Property ID"], ["P1"], [""]] [["P1"], ["P2"]] =
      MainRun.WriteAction.prependWrite
        [["Snapshot for 2025-02-01"], ["Property ID"], ["P2"], [""],
         ["Snapshot for 2025-01-01"], ["Property ID"], ["P1"], [""]] ∧
    MainRun.runCountyWrite false true "Snapshot for 2025-02-01" ["Property ID"]
        [["Snapshot for 2025-01-01"], ["Property ID"], ["P1"], [""]] [["P1"]] =
      MainRun.WriteAction.noWrite :=
  ⟨(write_mode_decision_shape true true "Snapshot for 2025-01-01" ["Property ID"]
      [] [["P1"], ["P2"]]).1 (by decide),
   ((write_mode_decision_shape false true "Snapshot for 2025-02-01" ["Property ID"]
      [["Snapshot for 2025-01-01"], ["Property ID"], ["P1"], [""]]
      [["P1"], ["P2"]]).2.1 (by decide) (by decide)).trans (by decide),
   (write_mode_decision_shape false true "Snapshot for 2025-02-01" ["Property ID"]
      [["Snapshot for 2025-01-01"], ["Property ID"], ["P1"], [""]]
      [["P1"]]).2.2 (by decide) (by decide)⟩

/-- Claim C8, counterexample: the window membership test is not a pure
function of `(dateString, referenceDate, lengthDays)` as actually invoked.
`scrape_county_sales` calls `is_within_30_days(sales_date)` with no
reference date, so `today=None` falls back to the hidden clock
(`datetime.now()` / `window_range()`), and the same call at two clock
instants returns different booleans in both implementations. -/
theorem window_hidden_clock_counterexample :
    Scraper.is_within_30_days "01/15/2025" none ⟨2025, 1, 1⟩ = true ∧
    Scraper.is_within_30_days "01/15/2025" none ⟨2025, 3, 1⟩ = false ∧
    Highlighting.is_within_30_days "01/15/2025" none ⟨2025, 1, 1⟩ = true ∧
    Highlighting.is_within_30_days "01/15/2025" none ⟨2025, 3, 1⟩ = false := by
  decide

/-- Claim C8, amended: when the reference date IS supplied explicitly, both
window evaluators are pure functions of the date string and the reference
(window length is the fixed constant 30): the ambient clock value has no
influence on the result. -/
theorem window_pure_with_explicit_reference :
    (∀ (s : String) (t n1 n2 : PyDate),
      Scraper.is_within_30_days s (some t) n1 = Scraper.is_within_30_days s (some t) n2) ∧
    (∀ (s : String) (t n1 n2 : PyDate),
      Highlighting.is_within_30_days s (some t) n1 =
        Highlighting.is_within_30_days s (some t) n2) :=
  ⟨fun _ _ _ _ => rfl, fun _ _ _ _ => rfl⟩

/-- Claim C9: the previous-state extractor is a total function with the
documented fallbacks: a table of fewer than two rows yields the empty key
set; with no recognizable header row it skips the two top rows when the
table is longer than two rows and skips none on a two-row table; and when
a header row is found, collection starts right after it.  Exceptions in
the sources are confined to the backend read (modelled by its `[]` result)
and the per-row `try/except`, whose body on string cells cannot throw. -/
theorem extractor_total_fallback :
    (∀ vals : List (List String), vals.length < 2 →
      Highlighting.get_previous_keys vals = []) ∧
    (∀ vals : List (List String), Highlighting.findHeaderIdx vals = none →
      2 < vals.length →
      Highlighting.get_previous_keys vals = Highlighting.collectKeys (vals.drop 2)) ∧
    (∀ vals : List (List String), Highlighting.findHeaderIdx vals = none →
      vals.length = 2 →
      Highlighting.get_previous_keys vals = Highlighting.collectKeys vals) ∧
    (∀ (vals : List (List String)) (i : Nat), Highlighting.findHeaderIdx vals = some i →
      1 < vals.length →
      Highlighting.get_previous_keys vals =
        Highlighting.collectKeys (vals.drop (i + 1))) := by
  refine ⟨fun vals h => ?_, fun vals hh hl => ?_, fun vals hh hl => ?_,
    fun vals i hh hl => ?_⟩
  · unfold Highlighting.get_previous_keys
    rw [if_pos h]
  · unfold Highlighting.get_previous_keys
    rw [if_neg (by omega), hh]
    simp only [if_pos hl]
  · unfold Highlighting.get_previous_keys
    rw [if_neg (by omega), hh]
    rw [if_neg (by omega)]
    simp
  · unfold Highlighting.get_previous_keys
    rw [if_neg (by omega), hh]

/-- Claim C9, witness: the fallbacks at concrete tables. -/
theorem extractor_total_fallback_witness :
    Highlighting.get_previous_keys [["x"]] = [] ∧
    Highlighting.findHeaderIdx [["a"], ["b"], ["c"]] = none ∧
    Highlighting.get_previous_keys [["a"], ["b"], ["c"]] = ["c"] ∧
    Highlighting.findHeaderIdx [["a"], ["b"]] = none ∧
    Highlighting.get_previous_keys [["a"], ["b"]] = ["a", "b"] :=
  ⟨extractor_total_fallback.1 [["x"]] (by decide), by decide,
   (extractor_total_fallback.2.1 [["a"], ["b"], ["c"]] (by decide) (by decide)).trans
     (by decide),
   by decide,
   (extractor_total_fallback.2.2.1 [["a"], ["b"]] (by decide) (by decide)).trans
     (by decide)⟩

/-- Claim C10: empty-diff no-op.  `prepend_snapshot` called with an empty
new-row list returns before touching anything, in both `main.py` and
`main_lightweight.py`: the persisted table, the highlight decorations and
the filter state are all left exactly as they were. -/
theorem prepend_empty_noop (banner : String) (header : List String)
    (idxs : List Nat) (st : MainRun.SheetState) :
    MainRun.prepend_snapshot banner header [] idxs st = st ∧
    MainLW.prepend_snapshot banner header [] idxs st = st :=
  ⟨rfl, rfl⟩
